import Mathlib

/-!
Verification of the facial-metrics extractor (`facial_analysis.py`).

The embedding models the metric-extraction core over exact reals:
`math.hypot` becomes `Real.sqrt` of the sum of squares, Python's `/`
on computed quantities becomes the `Option`-valued `fdiv` (Python raises
`ZeroDivisionError` exactly when the divisor is zero), and Python's
`round(x, n)` becomes exact round-half-to-even at `n` decimal places.
-/

namespace FA

noncomputable section

/-- A 2D point in pixel space. -/
structure Pt where
  x : ℝ
  y : ℝ

/-- `px`: resolves a normalized landmark to pixel coordinates
(`pt.x * w, pt.y * h`), source lines 79-82. -/
def px (p : Pt) (w h : ℝ) : Pt := ⟨p.x * w, p.y * h⟩

/-- `dist`: Euclidean distance, `math.hypot(b0 - a0, b1 - a1)`, source lines 85-86. -/
def dist (a b : Pt) : ℝ := Real.sqrt ((b.x - a.x) ^ 2 + (b.y - a.y) ^ 2)

/-- The named landmarks consumed by the extractor (the `LM` table, source lines 28-72),
already looked up in the detector output: one normalized 2D point per key. -/
structure Landmarks where
  forehead_top : Pt
  glabela : Pt
  nasal_base : Pt
  chin : Pt
  jaw_left : Pt
  jaw_right : Pt
  eye_left_inner : Pt
  eye_left_outer : Pt
  eye_right_inner : Pt
  eye_right_outer : Pt
  eye_left_top : Pt
  eye_left_bot : Pt
  eye_right_top : Pt
  eye_right_bot : Pt
  brow_left_peak : Pt
  brow_right_peak : Pt
  nasal_tip : Pt
  ala_left : Pt
  ala_right : Pt
  lip_top : Pt
  lip_bot : Pt
  lip_left : Pt
  lip_right : Pt
  cupid_left : Pt
  cupid_right : Pt
  mento : Pt
  malar_left : Pt
  malar_right : Pt

/-- The epsilon `1e-9` added to denominators in the source. -/
def eps : ℝ := 1 / 10 ^ 9

/-- Python float division: raises `ZeroDivisionError` when the divisor is zero,
modelled as `none`. -/
def fdiv (a b : ℝ) : Option ℝ := if b = 0 then none else some (a / b)

/-- Python's nearest-integer rounding with ties to even (`round(x)` semantics
over exact reals): ordinary nearest rounding away from ties, and the nearest
even integer when the fractional part is exactly one half. -/
def rnd (x : ℝ) : ℤ := if x - ⌊x⌋ = 1 / 2 then 2 * round (x / 2) else round x

/-- Python's `round(x, n)` over exact reals: round `x * 10^n` half-to-even,
then divide back. -/
def pyround (x : ℝ) (n : ℕ) : ℝ := (rnd (x * 10 ^ n) : ℝ) / 10 ^ n

/-- The `FacialMetrics` dataclass, source lines 101-146. -/
structure FacialMetrics where
  face_width_px : ℝ
  face_height_px : ℝ
  facial_index : ℝ
  third_upper_pct : ℝ
  third_middle_pct : ℝ
  third_lower_pct : ℝ
  fifth_1_pct : ℝ
  fifth_2_pct : ℝ
  fifth_3_pct : ℝ
  fifth_4_pct : ℝ
  fifth_5_pct : ℝ
  eye_left_width_px : ℝ
  eye_right_width_px : ℝ
  eye_symmetry_pct : ℝ
  interpupillary_dist_px : ℝ
  brow_left_height_px : ℝ
  brow_right_height_px : ℝ
  brow_symmetry_pct : ℝ
  nasal_width_px : ℝ
  nasal_height_px : ℝ
  nasal_index : ℝ
  lip_width_px : ℝ
  lip_height_px : ℝ
  lip_index : ℝ
  upper_lower_lip_ratio : ℝ
  chin_projection_pct : ℝ
  global_asymmetry_px : ℝ

/-- `face_w = dist(jaw_l, jaw_r)`, source line 164. -/
def face_w (lm : Landmarks) (w h : ℝ) : ℝ :=
  dist (px lm.jaw_left w h) (px lm.jaw_right w h)

/-- `face_h = dist(forehead, chin)`, source line 165. -/
def face_h (lm : Landmarks) (w h : ℝ) : ℝ :=
  dist (px lm.forehead_top w h) (px lm.chin w h)

/-- `t_upper = dist(forehead, glabela)`, source line 168. -/
def t_upper (lm : Landmarks) (w h : ℝ) : ℝ :=
  dist (px lm.forehead_top w h) (px lm.glabela w h)

/-- `t_middle = dist(glabela, nas_base)`, source line 169. -/
def t_middle (lm : Landmarks) (w h : ℝ) : ℝ :=
  dist (px lm.glabela w h) (px lm.nasal_base w h)

/-- `t_lower = dist(nas_base, chin)`, source line 170. -/
def t_lower (lm : Landmarks) (w h : ℝ) : ℝ :=
  dist (px lm.nasal_base w h) (px lm.chin w h)

/-- `total_t = t_upper + t_middle + t_lower`, source line 171. -/
def total_t (lm : Landmarks) (w h : ℝ) : ℝ :=
  t_upper lm w h + t_middle lm w h + t_lower lm w h

/-- `f1 = el_out[0] - jaw_l[0]`, a raw x-difference, source line 179. -/
def f1 (lm : Landmarks) (w h : ℝ) : ℝ :=
  (px lm.eye_left_outer w h).x - (px lm.jaw_left w h).x

/-- `f2 = dist(el_out, el_in)`, source line 180. -/
def f2 (lm : Landmarks) (w h : ℝ) : ℝ :=
  dist (px lm.eye_left_outer w h) (px lm.eye_left_inner w h)

/-- `f3 = dist(el_in, er_in)`, the central fifth, source line 181. -/
def f3 (lm : Landmarks) (w h : ℝ) : ℝ :=
  dist (px lm.eye_left_inner w h) (px lm.eye_right_inner w h)

/-- `f4 = dist(er_in, er_out)`, source line 182. -/
def f4 (lm : Landmarks) (w h : ℝ) : ℝ :=
  dist (px lm.eye_right_inner w h) (px lm.eye_right_outer w h)

/-- `f5 = jaw_r[0] - er_out[0]`, a raw x-difference, source line 183. -/
def f5 (lm : Landmarks) (w h : ℝ) : ℝ :=
  (px lm.jaw_right w h).x - (px lm.eye_right_outer w h).x

/-- `total_f = f1 + f2 + f3 + f4 + f5`, source line 184. -/
def total_f (lm : Landmarks) (w h : ℝ) : ℝ :=
  f1 lm w h + f2 lm w h + f3 lm w h + f4 lm w h + f5 lm w h

/-- `eye_l_w = dist(g("eye_left_outer"), g("eye_left_inner"))`, source line 187. -/
def eye_l_w (lm : Landmarks) (w h : ℝ) : ℝ :=
  dist (px lm.eye_left_outer w h) (px lm.eye_left_inner w h)

/-- `eye_r_w = dist(g("eye_right_outer"), g("eye_right_inner"))`, source line 188. -/
def eye_r_w (lm : Landmarks) (w h : ℝ) : ℝ :=
  dist (px lm.eye_right_outer w h) (px lm.eye_right_inner w h)

/-- `pupil_l`, midpoint approximation of the left pupil, source line 191. -/
def pupil_l (lm : Landmarks) (w h : ℝ) : Pt :=
  ⟨((px lm.eye_left_outer w h).x + (px lm.eye_left_inner w h).x) / 2,
   ((px lm.eye_left_top w h).y + (px lm.eye_left_bot w h).y) / 2⟩

/-- `pupil_r`, midpoint approximation of the right pupil, source line 192. -/
def pupil_r (lm : Landmarks) (w h : ℝ) : Pt :=
  ⟨((px lm.eye_right_outer w h).x + (px lm.eye_right_inner w h).x) / 2,
   ((px lm.eye_right_top w h).y + (px lm.eye_right_bot w h).y) / 2⟩

/-- `ipd = dist(pupil_l, pupil_r)`, source line 193. -/
def ipd (lm : Landmarks) (w h : ℝ) : ℝ :=
  dist (pupil_l lm w h) (pupil_r lm w h)

/-- `brow_l_h = dist(g("brow_left_peak"), g("eye_left_outer"))`, source line 196. -/
def brow_l_h (lm : Landmarks) (w h : ℝ) : ℝ :=
  dist (px lm.brow_left_peak w h) (px lm.eye_left_outer w h)

/-- `brow_r_h = dist(g("brow_right_peak"), g("eye_right_outer"))`, source line 197. -/
def brow_r_h (lm : Landmarks) (w h : ℝ) : ℝ :=
  dist (px lm.brow_right_peak w h) (px lm.eye_right_outer w h)

/-- `nas_w = dist(g("ala_left"), g("ala_right"))`, source line 201. -/
def nas_w (lm : Landmarks) (w h : ℝ) : ℝ :=
  dist (px lm.ala_left w h) (px lm.ala_right w h)

/-- `nas_h = dist(g("nasal_tip"), g("nasal_base"))`, source line 202. -/
def nas_h (lm : Landmarks) (w h : ℝ) : ℝ :=
  dist (px lm.nasal_tip w h) (px lm.nasal_base w h)

/-- `lip_w = dist(g("lip_left"), g("lip_right"))`, source line 206. -/
def lip_w (lm : Landmarks) (w h : ℝ) : ℝ :=
  dist (px lm.lip_left w h) (px lm.lip_right w h)

/-- `lip_h = dist(g("lip_top"), g("lip_bot"))`, source line 207. -/
def lip_h (lm : Landmarks) (w h : ℝ) : ℝ :=
  dist (px lm.lip_top w h) (px lm.lip_bot w h)

/-- `lip_mid_y = (g("lip_top")[1] + g("lip_bot")[1]) / 2`, source line 211. -/
def lip_mid_y (lm : Landmarks) (w h : ℝ) : ℝ :=
  ((px lm.lip_top w h).y + (px lm.lip_bot w h).y) / 2

/-- `upper_h = abs(g("cupid_left")[1] - g("lip_top")[1])`, source line 212. -/
def upper_h (lm : Landmarks) (w h : ℝ) : ℝ :=
  |(px lm.cupid_left w h).y - (px lm.lip_top w h).y|

/-- `lower_h = abs(g("lip_bot")[1] - lip_mid_y)`, source line 213. -/
def lower_h (lm : Landmarks) (w h : ℝ) : ℝ :=
  |(px lm.lip_bot w h).y - lip_mid_y lm w h|

/-- `chin_h = dist(nas_base, chin)`, source line 217. -/
def chin_h (lm : Landmarks) (w h : ℝ) : ℝ :=
  dist (px lm.nasal_base w h) (px lm.chin w h)

/-- `asym_vals`: absolute vertical deviation of the five bilateral pairs,
source lines 221-229. -/
def asym_vals (lm : Landmarks) (w h : ℝ) : List ℝ :=
  [ |(px lm.eye_left_outer w h).y - (px lm.eye_right_outer w h).y|,
    |(px lm.ala_left w h).y - (px lm.ala_right w h).y|,
    |(px lm.malar_left w h).y - (px lm.malar_right w h).y|,
    |(px lm.lip_left w h).y - (px lm.lip_right w h).y|,
    |(px lm.brow_left_peak w h).y - (px lm.brow_right_peak w h).y| ]

/-- `global_asym = np.mean(asym_vals)`, source line 230. -/
def global_asym (lm : Landmarks) (w h : ℝ) : ℝ :=
  (asym_vals lm w h).sum / (asym_vals lm w h).length

/-- The record built by a successful run of `extract_metrics` (source lines
232-268), with every division written as exact real division; `extract_metrics`
below returns exactly this record when no division raises. -/
def R (lm : Landmarks) (w h : ℝ) : FacialMetrics where
  face_width_px := pyround (face_w lm w h) 1
  face_height_px := pyround (face_h lm w h) 1
  facial_index := pyround (face_h lm w h / (face_w lm w h + eps)) 3
  third_upper_pct := pyround (t_upper lm w h / total_t lm w h * 100) 1
  third_middle_pct := pyround (t_middle lm w h / total_t lm w h * 100) 1
  third_lower_pct := pyround (t_lower lm w h / total_t lm w h * 100) 1
  fifth_1_pct := pyround (f1 lm w h / total_f lm w h * 100) 1
  fifth_2_pct := pyround (f2 lm w h / total_f lm w h * 100) 1
  fifth_3_pct := pyround (f3 lm w h / total_f lm w h * 100) 1
  fifth_4_pct := pyround (f4 lm w h / total_f lm w h * 100) 1
  fifth_5_pct := pyround (f5 lm w h / total_f lm w h * 100) 1
  eye_left_width_px := pyround (eye_l_w lm w h) 1
  eye_right_width_px := pyround (eye_r_w lm w h) 1
  eye_symmetry_pct :=
    pyround (|eye_l_w lm w h - eye_r_w lm w h| / max (eye_l_w lm w h) (eye_r_w lm w h) * 100) 1
  interpupillary_dist_px := pyround (ipd lm w h) 1
  brow_left_height_px := pyround (brow_l_h lm w h) 1
  brow_right_height_px := pyround (brow_r_h lm w h) 1
  brow_symmetry_pct :=
    pyround (|brow_l_h lm w h - brow_r_h lm w h| / max (brow_l_h lm w h) (brow_r_h lm w h) * 100) 1
  nasal_width_px := pyround (nas_w lm w h) 1
  nasal_height_px := pyround (nas_h lm w h) 1
  nasal_index := pyround (nas_w lm w h / (nas_h lm w h + eps)) 3
  lip_width_px := pyround (lip_w lm w h) 1
  lip_height_px := pyround (lip_h lm w h) 1
  lip_index := pyround (lip_w lm w h / (lip_h lm w h + eps)) 3
  upper_lower_lip_ratio := pyround (upper_h lm w h / (lower_h lm w h + eps)) 3
  chin_projection_pct :=
    pyround (dist (px lm.mento w h) (px lm.chin w h) / (chin_h lm w h + eps) * 100) 1
  global_asymmetry_px := pyround (global_asym lm w h) 1

/-- `extract_metrics`, source lines 153-268: the full extraction. Each Python
division by a computed quantity is an `fdiv` (eye symmetry line 189, brow
symmetry line 198, nasal index line 203, lip index line 208, lip ratio
line 214, chin projection line 218, then the divisions inside the constructor
call, lines 235-245, in source order); the run yields a record exactly when
every division succeeds, and the `ZeroDivisionError` outcome (`none`)
otherwise, as in the source, where any failing division aborts the call. -/
def extract_metrics (lm : Landmarks) (w h : ℝ) : Option FacialMetrics :=
  match fdiv (|eye_l_w lm w h - eye_r_w lm w h|) (max (eye_l_w lm w h) (eye_r_w lm w h)),
        fdiv (|brow_l_h lm w h - brow_r_h lm w h|) (max (brow_l_h lm w h) (brow_r_h lm w h)),
        fdiv (nas_w lm w h) (nas_h lm w h + eps),
        fdiv (lip_w lm w h) (lip_h lm w h + eps),
        fdiv (upper_h lm w h) (lower_h lm w h + eps),
        fdiv (dist (px lm.mento w h) (px lm.chin w h)) (chin_h lm w h + eps),
        fdiv (face_h lm w h) (face_w lm w h + eps),
        fdiv (t_upper lm w h) (total_t lm w h),
        fdiv (t_middle lm w h) (total_t lm w h),
        fdiv (t_lower lm w h) (total_t lm w h),
        fdiv (f1 lm w h) (total_f lm w h),
        fdiv (f2 lm w h) (total_f lm w h),
        fdiv (f3 lm w h) (total_f lm w h),
        fdiv (f4 lm w h) (total_f lm w h),
        fdiv (f5 lm w h) (total_f lm w h) with
  | some eye_sym, some brow_sym, some nas_idx, some lip_idx, some ul_r,
    some chin_pr, some fidx, some tu, some tm, some tl,
    some q1, some q2, some q3, some q4, some q5 =>
      some
        { face_width_px := pyround (face_w lm w h) 1
          face_height_px := pyround (face_h lm w h) 1
          facial_index := pyround fidx 3
          third_upper_pct := pyround (tu * 100) 1
          third_middle_pct := pyround (tm * 100) 1
          third_lower_pct := pyround (tl * 100) 1
          fifth_1_pct := pyround (q1 * 100) 1
          fifth_2_pct := pyround (q2 * 100) 1
          fifth_3_pct := pyround (q3 * 100) 1
          fifth_4_pct := pyround (q4 * 100) 1
          fifth_5_pct := pyround (q5 * 100) 1
          eye_left_width_px := pyround (eye_l_w lm w h) 1
          eye_right_width_px := pyround (eye_r_w lm w h) 1
          eye_symmetry_pct := pyround (eye_sym * 100) 1
          interpupillary_dist_px := pyround (ipd lm w h) 1
          brow_left_height_px := pyround (brow_l_h lm w h) 1
          brow_right_height_px := pyround (brow_r_h lm w h) 1
          brow_symmetry_pct := pyround (brow_sym * 100) 1
          nasal_width_px := pyround (nas_w lm w h) 1
          nasal_height_px := pyround (nas_h lm w h) 1
          nasal_index := pyround nas_idx 3
          lip_width_px := pyround (lip_w lm w h) 1
          lip_height_px := pyround (lip_h lm w h) 1
          lip_index := pyround lip_idx 3
          upper_lower_lip_ratio := pyround ul_r 3
          chin_projection_pct := pyround (chin_pr * 100) 1
          global_asymmetry_px := pyround (global_asym lm w h) 1 }
  | _, _, _, _, _, _, _, _, _, _, _, _, _, _, _ => none

/-! Basic facts about the embedded primitives. -/

lemma eps_pos : (0 : ℝ) < eps := by norm_num [eps]

lemma dist_nn (a b : Pt) : 0 ≤ dist a b := Real.sqrt_nonneg _

lemma fdiv_of_ne (a : ℝ) {b : ℝ} (hb : b ≠ 0) : fdiv a b = some (a / b) := if_neg hb

lemma fdiv_of_eq (a : ℝ) {b : ℝ} (hb : b = 0) : fdiv a b = none := if_pos hb

lemma nas_h_eps_ne (lm : Landmarks) (w h : ℝ) : nas_h lm w h + eps ≠ 0 :=
  ne_of_gt (add_pos_of_nonneg_of_pos (Real.sqrt_nonneg _) eps_pos)

lemma lip_h_eps_ne (lm : Landmarks) (w h : ℝ) : lip_h lm w h + eps ≠ 0 :=
  ne_of_gt (add_pos_of_nonneg_of_pos (Real.sqrt_nonneg _) eps_pos)

lemma lower_h_eps_ne (lm : Landmarks) (w h : ℝ) : lower_h lm w h + eps ≠ 0 :=
  ne_of_gt (add_pos_of_nonneg_of_pos (abs_nonneg _) eps_pos)

lemma chin_h_eps_ne (lm : Landmarks) (w h : ℝ) : chin_h lm w h + eps ≠ 0 :=
  ne_of_gt (add_pos_of_nonneg_of_pos (Real.sqrt_nonneg _) eps_pos)

lemma face_w_eps_ne (lm : Landmarks) (w h : ℝ) : face_w lm w h + eps ≠ 0 :=
  ne_of_gt (add_pos_of_nonneg_of_pos (Real.sqrt_nonneg _) eps_pos)

/-- A run of the extractor in which no division raises returns exactly the
record `R`. -/
lemma extract_metrics_eq_some (lm : Landmarks) (w h : ℝ)
    (hE : max (eye_l_w lm w h) (eye_r_w lm w h) ≠ 0)
    (hB : max (brow_l_h lm w h) (brow_r_h lm w h) ≠ 0)
    (hT : total_t lm w h ≠ 0) (hF : total_f lm w h ≠ 0) :
    extract_metrics lm w h = some (R lm w h) := by
  unfold extract_metrics
  rw [fdiv_of_ne _ hE, fdiv_of_ne _ hB, fdiv_of_ne _ (nas_h_eps_ne lm w h),
    fdiv_of_ne _ (lip_h_eps_ne lm w h), fdiv_of_ne _ (lower_h_eps_ne lm w h),
    fdiv_of_ne _ (chin_h_eps_ne lm w h), fdiv_of_ne _ (face_w_eps_ne lm w h),
    fdiv_of_ne (t_upper lm w h) hT, fdiv_of_ne (t_middle lm w h) hT,
    fdiv_of_ne (t_lower lm w h) hT,
    fdiv_of_ne (f1 lm w h) hF, fdiv_of_ne (f2 lm w h) hF, fdiv_of_ne (f3 lm w h) hF,
    fdiv_of_ne (f4 lm w h) hF, fdiv_of_ne (f5 lm w h) hF]
  rfl

/-- The extractor raises (returns no record) when both eye widths vanish:
the divisor of the eye-symmetry division is `max` of the two widths. -/
lemma extract_metrics_eq_none_eye (lm : Landmarks) (w h : ℝ)
    (hE : max (eye_l_w lm w h) (eye_r_w lm w h) = 0) :
    extract_metrics lm w h = none := by
  unfold extract_metrics
  rw [fdiv_of_eq _ hE]

/-- The extractor raises when the eye division succeeds but both brow heights
vanish. -/
lemma extract_metrics_eq_none_brow (lm : Landmarks) (w h : ℝ)
    (hE : max (eye_l_w lm w h) (eye_r_w lm w h) ≠ 0)
    (hB : max (brow_l_h lm w h) (brow_r_h lm w h) = 0) :
    extract_metrics lm w h = none := by
  unfold extract_metrics
  rw [fdiv_of_ne _ hE, fdiv_of_eq _ hB]

/-- The extractor raises when the vertical-thirds total vanishes. -/
lemma extract_metrics_eq_none_thirds (lm : Landmarks) (w h : ℝ)
    (hE : max (eye_l_w lm w h) (eye_r_w lm w h) ≠ 0)
    (hB : max (brow_l_h lm w h) (brow_r_h lm w h) ≠ 0)
    (hT : total_t lm w h = 0) :
    extract_metrics lm w h = none := by
  unfold extract_metrics
  rw [fdiv_of_ne _ hE, fdiv_of_ne _ hB, fdiv_of_ne _ (nas_h_eps_ne lm w h),
    fdiv_of_ne _ (lip_h_eps_ne lm w h), fdiv_of_ne _ (lower_h_eps_ne lm w h),
    fdiv_of_ne _ (chin_h_eps_ne lm w h), fdiv_of_ne _ (face_w_eps_ne lm w h),
    fdiv_of_eq (t_upper lm w h) hT]

/-- The extractor raises when the horizontal-fifths total vanishes. -/
lemma extract_metrics_eq_none_fifths (lm : Landmarks) (w h : ℝ)
    (hE : max (eye_l_w lm w h) (eye_r_w lm w h) ≠ 0)
    (hB : max (brow_l_h lm w h) (brow_r_h lm w h) ≠ 0)
    (hT : total_t lm w h ≠ 0) (hF : total_f lm w h = 0) :
    extract_metrics lm w h = none := by
  unfold extract_metrics
  rw [fdiv_of_ne _ hE, fdiv_of_ne _ hB, fdiv_of_ne _ (nas_h_eps_ne lm w h),
    fdiv_of_ne _ (lip_h_eps_ne lm w h), fdiv_of_ne _ (lower_h_eps_ne lm w h),
    fdiv_of_ne _ (chin_h_eps_ne lm w h), fdiv_of_ne _ (face_w_eps_ne lm w h),
    fdiv_of_ne (t_upper lm w h) hT, fdiv_of_ne (t_middle lm w h) hT,
    fdiv_of_ne (t_lower lm w h) hT, fdiv_of_eq (f1 lm w h) hF]

/-- Inversion: a successful extraction means every division's divisor was
nonzero and the record is `R`. -/
lemma extract_metrics_some_inv (lm : Landmarks) (w h : ℝ) (m : FacialMetrics)
    (hm : extract_metrics lm w h = some m) :
    max (eye_l_w lm w h) (eye_r_w lm w h) ≠ 0 ∧
    max (brow_l_h lm w h) (brow_r_h lm w h) ≠ 0 ∧
    total_t lm w h ≠ 0 ∧ total_f lm w h ≠ 0 ∧ m = R lm w h := by
  by_cases hE : max (eye_l_w lm w h) (eye_r_w lm w h) = 0
  · rw [extract_metrics_eq_none_eye lm w h hE] at hm; exact absurd hm (by simp)
  by_cases hB : max (brow_l_h lm w h) (brow_r_h lm w h) = 0
  · rw [extract_metrics_eq_none_brow lm w h hE hB] at hm; exact absurd hm (by simp)
  by_cases hT : total_t lm w h = 0
  · rw [extract_metrics_eq_none_thirds lm w h hE hB hT] at hm; exact absurd hm (by simp)
  by_cases hF : total_f lm w h = 0
  · rw [extract_metrics_eq_none_fifths lm w h hE hB hT hF] at hm; exact absurd hm (by simp)
  rw [extract_metrics_eq_some lm w h hE hB hT hF] at hm
  exact ⟨hE, hB, hT, hF, (Option.some_inj.mp hm).symm⟩

/-! Properties of half-to-even rounding. -/

lemma round_quarter : round ((1 : ℝ) / 4) = 0 := by
  rw [round_eq, show (1 : ℝ) / 4 + 1 / 2 = 3 / 4 by norm_num]
  exact Int.floor_eq_iff.mpr (by norm_num)

lemma round_three_quarters : round ((3 : ℝ) / 4) = 1 := by
  rw [round_eq, show (3 : ℝ) / 4 + 1 / 2 = 5 / 4 by norm_num]
  exact Int.floor_eq_iff.mpr (by norm_num)

/-- Half-to-even rounding moves a real by at most one half. -/
lemma abs_rnd_sub (x : ℝ) : |(rnd x : ℝ) - x| ≤ 1 / 2 := by
  unfold rnd
  split_ifs with h
  · have hx : x = (⌊x⌋ : ℝ) + 1 / 2 := by linarith
    rcases Int.even_or_odd ⌊x⌋ with ⟨j, hj⟩ | ⟨j, hj⟩
    · have hjR : (⌊x⌋ : ℝ) = j + j := by exact_mod_cast congrArg (fun t : ℤ => (t : ℝ)) hj
      have h2 : x / 2 = 1 / 4 + (j : ℝ) := by linarith
      rw [show x / 2 = (1 : ℝ) / 4 + (j : ℤ) from h2, round_add_int, round_quarter]
      push_cast
      rw [abs_le]
      constructor <;> linarith
    · have hjR : (⌊x⌋ : ℝ) = 2 * j + 1 := by exact_mod_cast congrArg (fun t : ℤ => (t : ℝ)) hj
      have h2 : x / 2 = 3 / 4 + (j : ℝ) := by linarith
      rw [show x / 2 = (3 : ℝ) / 4 + (j : ℤ) from h2, round_add_int, round_three_quarters]
      push_cast
      rw [abs_le]
      constructor <;> linarith
  · rw [abs_sub_comm]
    exact abs_sub_round x

/-- Evaluation of `rnd` at a real strictly inside an integer's half-open
rounding window (no tie possible). -/
lemma rnd_eval {x : ℝ} {z : ℤ} (h1 : (z : ℝ) - 1 / 2 < x) (h2 : x < (z : ℝ) + 1 / 2) :
    rnd x = z := by
  have hfl : ⌊x + 1 / 2⌋ = z := Int.floor_eq_iff.mpr ⟨by linarith, by linarith⟩
  have hne : x - ⌊x⌋ ≠ 1 / 2 := by
    intro hq
    have hx : x = (⌊x⌋ : ℝ) + 1 / 2 := by linarith
    have l1 : z - 1 < ⌊x⌋ := by
      have : (z : ℝ) - 1 < (⌊x⌋ : ℝ) := by linarith
      exact_mod_cast this
    have l2 : ⌊x⌋ < z := by
      have : (⌊x⌋ : ℝ) < (z : ℝ) := by linarith
      exact_mod_cast this
    omega
  unfold rnd
  rw [if_neg hne, round_eq, hfl]

/-- Evaluation of `pyround` from a strict enclosure of `x * 10^n`. -/
lemma pyround_eval {x : ℝ} (n : ℕ) {z : ℤ} (h1 : (z : ℝ) - 1 / 2 < x * 10 ^ n)
    (h2 : x * 10 ^ n < (z : ℝ) + 1 / 2) : pyround x n = (z : ℝ) / 10 ^ n := by
  unfold pyround
  rw [rnd_eval h1 h2]

lemma rnd_zero : rnd 0 = 0 := rnd_eval (by norm_num) (by norm_num)

lemma pyround_zero (n : ℕ) : pyround 0 n = 0 := by
  unfold pyround
  rw [show (0 : ℝ) * 10 ^ n = 0 by ring, rnd_zero]
  norm_num

lemma rnd_nonneg {x : ℝ} (hx : 0 ≤ x) : 0 ≤ rnd x := by
  have h := abs_rnd_sub x
  rw [abs_le] at h
  have : (-1 : ℝ) / 2 ≤ (rnd x : ℝ) := by linarith
  by_contra hneg
  push_neg at hneg
  have h1 : rnd x ≤ -1 := by omega
  have h2 : (rnd x : ℝ) ≤ -1 := by exact_mod_cast h1
  linarith

lemma pyround_nonneg {x : ℝ} (hx : 0 ≤ x) (n : ℕ) : 0 ≤ pyround x n := by
  unfold pyround
  have h0 : 0 ≤ x * 10 ^ n := by positivity
  have := rnd_nonneg h0
  have hc : (0 : ℝ) ≤ (rnd (x * 10 ^ n) : ℝ) := by exact_mod_cast this
  positivity

/-- Three reals with integer sum: the sum of their roundings is off by at
most one. -/
lemma rnd_sum_three {x y z : ℝ} {S : ℤ} (h : x + y + z = S) :
    |((rnd x + rnd y + rnd z : ℤ) : ℝ) - S| ≤ 1 := by
  have hx := abs_rnd_sub x
  have hy := abs_rnd_sub y
  have hz := abs_rnd_sub z
  rw [abs_le] at hx hy hz
  have hb : |((rnd x + rnd y + rnd z : ℤ) : ℝ) - S| ≤ 3 / 2 := by
    rw [abs_le]
    push_cast
    constructor <;> linarith
  have hZ : |rnd x + rnd y + rnd z - S| ≤ 1 := by
    have hc : (|rnd x + rnd y + rnd z - S| : ℤ) < 2 := by
      have : |((rnd x + rnd y + rnd z - S : ℤ) : ℝ)| < 2 := by
        push_cast
        push_cast at hb
        calc |((rnd x : ℝ) + rnd y + rnd z - S)| ≤ 3 / 2 := by
              rw [abs_le] at hb ⊢; constructor <;> linarith [hb.1, hb.2]
          _ < 2 := by norm_num
      rw [← Int.cast_abs] at this
      exact_mod_cast this
    omega
  have : ((|rnd x + rnd y + rnd z - S| : ℤ) : ℝ) ≤ 1 := by exact_mod_cast hZ
  rw [Int.cast_abs] at this
  push_cast at this ⊢
  rw [abs_le] at this ⊢
  constructor <;> linarith [this.1, this.2]

/-- Five reals with integer sum: the sum of their roundings is off by at
most two. -/
lemma rnd_sum_five {x1 x2 x3 x4 x5 : ℝ} {S : ℤ} (h : x1 + x2 + x3 + x4 + x5 = S) :
    |((rnd x1 + rnd x2 + rnd x3 + rnd x4 + rnd x5 : ℤ) : ℝ) - S| ≤ 2 := by
  have h1 := abs_rnd_sub x1
  have h2 := abs_rnd_sub x2
  have h3 := abs_rnd_sub x3
  have h4 := abs_rnd_sub x4
  have h5 := abs_rnd_sub x5
  rw [abs_le] at h1 h2 h3 h4 h5
  have hb : |((rnd x1 + rnd x2 + rnd x3 + rnd x4 + rnd x5 : ℤ) : ℝ) - S| ≤ 5 / 2 := by
    rw [abs_le]
    push_cast
    constructor <;> linarith
  have hZ : |rnd x1 + rnd x2 + rnd x3 + rnd x4 + rnd x5 - S| ≤ 2 := by
    have hc : (|rnd x1 + rnd x2 + rnd x3 + rnd x4 + rnd x5 - S| : ℤ) < 3 := by
      have : |((rnd x1 + rnd x2 + rnd x3 + rnd x4 + rnd x5 - S : ℤ) : ℝ)| < 3 := by
        push_cast
        push_cast at hb
        calc |((rnd x1 : ℝ) + rnd x2 + rnd x3 + rnd x4 + rnd x5 - S)| ≤ 5 / 2 := by
              rw [abs_le] at hb ⊢; constructor <;> linarith [hb.1, hb.2]
          _ < 3 := by norm_num
      rw [← Int.cast_abs] at this
      exact_mod_cast this
    omega
  have : ((|rnd x1 + rnd x2 + rnd x3 + rnd x4 + rnd x5 - S| : ℤ) : ℝ) ≤ 2 := by
    exact_mod_cast hZ
  rw [Int.cast_abs] at this
  push_cast at this ⊢
  rw [abs_le] at this ⊢
  constructor <;> linarith [this.1, this.2]

/-- C1: for every landmark set and image dimensions on which `extract_metrics`
returns a record, the three third-percentage fields — each a segment's share
of the three segments' own sum, rounded to one decimal place — sum to 100.0
with an absolute deviation of at most 0.1. -/
theorem c1_thirds_sum_within_tenth (lm : Landmarks) (w h : ℝ) (m : FacialMetrics)
    (hm : extract_metrics lm w h = some m) :
    |m.third_upper_pct + m.third_middle_pct + m.third_lower_pct - 100| ≤ 1 / 10 := by
  obtain ⟨hE, hB, hT, hF, hR⟩ := extract_metrics_some_inv lm w h m hm
  subst hR
  simp only [R]
  unfold pyround
  have htot : t_upper lm w h + t_middle lm w h + t_lower lm w h = total_t lm w h := rfl
  have hsum : t_upper lm w h / total_t lm w h * 100 * 10 ^ 1 +
      t_middle lm w h / total_t lm w h * 100 * 10 ^ 1 +
      t_lower lm w h / total_t lm w h * 100 * 10 ^ 1 = ((1000 : ℤ) : ℝ) := by
    field_simp
    linear_combination (1000 : ℝ) * htot
  have key := rnd_sum_three hsum
  rw [abs_le] at key ⊢
  push_cast at key
  norm_num
  constructor <;> linarith [key.1, key.2]

/-- C2 (amended): for every landmark set and image dimensions on which
`extract_metrics` returns a record, the five fifth-percentage fields — each a
segment's share of the five-segment sum, rounded to one decimal place — sum
to 100.0 with an absolute deviation of at most 0.2 (the claimed 0.1 can be
exceeded, since five roundings can drift in the same direction). -/
theorem c2_fifths_sum_within_two_tenths (lm : Landmarks) (w h : ℝ) (m : FacialMetrics)
    (hm : extract_metrics lm w h = some m) :
    |m.fifth_1_pct + m.fifth_2_pct + m.fifth_3_pct + m.fifth_4_pct + m.fifth_5_pct - 100|
      ≤ 2 / 10 := by
  obtain ⟨hE, hB, hT, hF, hR⟩ := extract_metrics_some_inv lm w h m hm
  subst hR
  simp only [R]
  unfold pyround
  have htot : f1 lm w h + f2 lm w h + f3 lm w h + f4 lm w h + f5 lm w h = total_f lm w h := rfl
  have hsum : f1 lm w h / total_f lm w h * 100 * 10 ^ 1 +
      f2 lm w h / total_f lm w h * 100 * 10 ^ 1 +
      f3 lm w h / total_f lm w h * 100 * 10 ^ 1 +
      f4 lm w h / total_f lm w h * 100 * 10 ^ 1 +
      f5 lm w h / total_f lm w h * 100 * 10 ^ 1 = ((1000 : ℤ) : ℝ) := by
    field_simp
    linear_combination (1000 : ℝ) * htot
  have key := rnd_sum_five hsum
  rw [abs_le] at key ⊢
  push_cast at key
  norm_num
  constructor <;> linarith [key.1, key.2]

/-! Concrete landmark sets (pixel grids with `w = h = 1`, so normalized and
pixel coordinates coincide) used to evaluate the extractor. -/

/-- Evaluation of `dist` from an explicit square of the distance. -/
lemma dist_eval {x1 y1 x2 y2 c : ℝ} (hc : 0 ≤ c)
    (h : (x2 - x1) ^ 2 + (y2 - y1) ^ 2 = c ^ 2) : dist ⟨x1, y1⟩ ⟨x2, y2⟩ = c := by
  show Real.sqrt ((x2 - x1) ^ 2 + (y2 - y1) ^ 2) = c
  rw [h]
  exact Real.sqrt_sq hc

/-- A well-formed, bilaterally symmetric landmark set on a 100 × 300 grid. -/
def wlm : Landmarks where
  forehead_top := ⟨50, 0⟩
  glabela := ⟨50, 100⟩
  nasal_base := ⟨50, 200⟩
  chin := ⟨50, 300⟩
  jaw_left := ⟨0, 150⟩
  jaw_right := ⟨100, 150⟩
  eye_left_inner := ⟨40, 150⟩
  eye_left_outer := ⟨20, 150⟩
  eye_right_inner := ⟨60, 150⟩
  eye_right_outer := ⟨80, 150⟩
  eye_left_top := ⟨30, 145⟩
  eye_left_bot := ⟨30, 155⟩
  eye_right_top := ⟨70, 145⟩
  eye_right_bot := ⟨70, 155⟩
  brow_left_peak := ⟨20, 130⟩
  brow_right_peak := ⟨80, 130⟩
  nasal_tip := ⟨50, 180⟩
  ala_left := ⟨40, 190⟩
  ala_right := ⟨60, 190⟩
  lip_top := ⟨50, 240⟩
  lip_bot := ⟨50, 260⟩
  lip_left := ⟨30, 250⟩
  lip_right := ⟨70, 250⟩
  cupid_left := ⟨45, 235⟩
  cupid_right := ⟨55, 235⟩
  mento := ⟨50, 280⟩
  malar_left := ⟨15, 170⟩
  malar_right := ⟨85, 170⟩

lemma wlm_eye_l_w : eye_l_w wlm 1 1 = 20 :=
  dist_eval (by norm_num) (by norm_num [wlm])

lemma wlm_eye_r_w : eye_r_w wlm 1 1 = 20 :=
  dist_eval (by norm_num) (by norm_num [wlm])

lemma wlm_brow_l_h : brow_l_h wlm 1 1 = 20 :=
  dist_eval (by norm_num) (by norm_num [wlm])

lemma wlm_brow_r_h : brow_r_h wlm 1 1 = 20 :=
  dist_eval (by norm_num) (by norm_num [wlm])

lemma wlm_t_upper : t_upper wlm 1 1 = 100 :=
  dist_eval (by norm_num) (by norm_num [wlm])

lemma wlm_t_middle : t_middle wlm 1 1 = 100 :=
  dist_eval (by norm_num) (by norm_num [wlm])

lemma wlm_t_lower : t_lower wlm 1 1 = 100 :=
  dist_eval (by norm_num) (by norm_num [wlm])

lemma wlm_f1 : f1 wlm 1 1 = 20 := by norm_num [f1, px, wlm]

lemma wlm_f2 : f2 wlm 1 1 = 20 :=
  dist_eval (by norm_num) (by norm_num [wlm])

lemma wlm_f3 : f3 wlm 1 1 = 20 :=
  dist_eval (by norm_num) (by norm_num [wlm])

lemma wlm_f4 : f4 wlm 1 1 = 20 :=
  dist_eval (by norm_num) (by norm_num [wlm])

lemma wlm_f5 : f5 wlm 1 1 = 20 := by norm_num [f5, px, wlm]

lemma wlm_total_t : total_t wlm 1 1 = 300 := by
  unfold total_t
  rw [wlm_t_upper, wlm_t_middle, wlm_t_lower]
  norm_num

lemma wlm_total_f : total_f wlm 1 1 = 100 := by
  unfold total_f
  rw [wlm_f1, wlm_f2, wlm_f3, wlm_f4, wlm_f5]
  norm_num

/-- The extractor succeeds on the symmetric witness set. -/
lemma extract_wlm : extract_metrics wlm 1 1 = some (R wlm 1 1) := by
  apply extract_metrics_eq_some
  · rw [wlm_eye_l_w, wlm_eye_r_w]; norm_num
  · rw [wlm_brow_l_h, wlm_brow_r_h]; norm_num
  · rw [wlm_total_t]; norm_num
  · rw [wlm_total_f]; norm_num

/-- C1 witness: the theorem applied to the symmetric witness set. -/
theorem c1_thirds_sum_within_tenth_witness :
    extract_metrics wlm 1 1 = some (R wlm 1 1) ∧
    |(R wlm 1 1).third_upper_pct + (R wlm 1 1).third_middle_pct +
      (R wlm 1 1).third_lower_pct - 100| ≤ 1 / 10 :=
  ⟨extract_wlm, c1_thirds_sum_within_tenth wlm 1 1 (R wlm 1 1) extract_wlm⟩

/-- C2 witness: the amended bound applied to the symmetric witness set. -/
theorem c2_fifths_sum_within_two_tenths_witness :
    extract_metrics wlm 1 1 = some (R wlm 1 1) ∧
    |(R wlm 1 1).fifth_1_pct + (R wlm 1 1).fifth_2_pct + (R wlm 1 1).fifth_3_pct +
      (R wlm 1 1).fifth_4_pct + (R wlm 1 1).fifth_5_pct - 100| ≤ 2 / 10 :=
  ⟨extract_wlm, c2_fifths_sum_within_two_tenths wlm 1 1 (R wlm 1 1) extract_wlm⟩

/-- Evaluation of `pyround` against an arbitrary right-hand side. -/
lemma pyround_eq {x c : ℝ} (n : ℕ) (z : ℤ) (h1 : (z : ℝ) - 1 / 2 < x * 10 ^ n)
    (h2 : x * 10 ^ n < (z : ℝ) + 1 / 2) (hc : c = (z : ℝ) / 10 ^ n) : pyround x n = c := by
  rw [pyround_eval n h1 h2, hc]

/-- A landmark set whose four left fifths are tiny (1.4 units against a
thousand-unit face): each of the four rounds 0.14 % down to 0.1 %, and the
fifth rounds 99.44 % down to 99.4 %, so the five reported percentages sum
to 99.8. -/
def clm : Landmarks where
  forehead_top := ⟨50, 0⟩
  glabela := ⟨50, 100⟩
  nasal_base := ⟨50, 200⟩
  chin := ⟨50, 300⟩
  jaw_left := ⟨0, 150⟩
  jaw_right := ⟨1000, 150⟩
  eye_left_inner := ⟨14 / 5, 150⟩
  eye_left_outer := ⟨7 / 5, 150⟩
  eye_right_inner := ⟨21 / 5, 150⟩
  eye_right_outer := ⟨28 / 5, 150⟩
  eye_left_top := ⟨2, 145⟩
  eye_left_bot := ⟨2, 155⟩
  eye_right_top := ⟨5, 145⟩
  eye_right_bot := ⟨5, 155⟩
  brow_left_peak := ⟨7 / 5, 130⟩
  brow_right_peak := ⟨28 / 5, 130⟩
  nasal_tip := ⟨50, 180⟩
  ala_left := ⟨40, 190⟩
  ala_right := ⟨60, 190⟩
  lip_top := ⟨50, 240⟩
  lip_bot := ⟨50, 260⟩
  lip_left := ⟨30, 250⟩
  lip_right := ⟨70, 250⟩
  cupid_left := ⟨45, 235⟩
  cupid_right := ⟨55, 235⟩
  mento := ⟨50, 280⟩
  malar_left := ⟨15, 170⟩
  malar_right := ⟨85, 170⟩

lemma clm_eye_l_w : eye_l_w clm 1 1 = 7 / 5 :=
  dist_eval (by norm_num) (by norm_num [clm])

lemma clm_eye_r_w : eye_r_w clm 1 1 = 7 / 5 :=
  dist_eval (by norm_num) (by norm_num [clm])

lemma clm_brow_l_h : brow_l_h clm 1 1 = 20 :=
  dist_eval (by norm_num) (by norm_num [clm])

lemma clm_brow_r_h : brow_r_h clm 1 1 = 20 :=
  dist_eval (by norm_num) (by norm_num [clm])

lemma clm_total_t : total_t clm 1 1 = 300 := by
  unfold total_t
  rw [show t_upper clm 1 1 = 100 from dist_eval (by norm_num) (by norm_num [clm]),
    show t_middle clm 1 1 = 100 from dist_eval (by norm_num) (by norm_num [clm]),
    show t_lower clm 1 1 = 100 from dist_eval (by norm_num) (by norm_num [clm])]
  norm_num

lemma clm_f1 : f1 clm 1 1 = 7 / 5 := by norm_num [f1, px, clm]

lemma clm_f2 : f2 clm 1 1 = 7 / 5 :=
  dist_eval (by norm_num) (by norm_num [clm])

lemma clm_f3 : f3 clm 1 1 = 7 / 5 :=
  dist_eval (by norm_num) (by norm_num [clm])

lemma clm_f4 : f4 clm 1 1 = 7 / 5 :=
  dist_eval (by norm_num) (by norm_num [clm])

lemma clm_f5 : f5 clm 1 1 = 4972 / 5 := by norm_num [f5, px, clm]

lemma clm_total_f : total_f clm 1 1 = 1000 := by
  unfold total_f
  rw [clm_f1, clm_f2, clm_f3, clm_f4, clm_f5]
  norm_num

lemma extract_clm : extract_metrics clm 1 1 = some (R clm 1 1) := by
  apply extract_metrics_eq_some
  · rw [clm_eye_l_w, clm_eye_r_w]; norm_num
  · rw [clm_brow_l_h, clm_brow_r_h]; norm_num
  · rw [clm_total_t]; norm_num
  · rw [clm_total_f]; norm_num

/-- C2 counterexample: on `clm` the extractor succeeds and the five reported
fifth percentages sum to 99.8, deviating from 100 by 0.2 > 0.1, refuting the
claimed 0.1 bound. -/
theorem c2_counterexample :
    (extract_metrics clm 1 1).map
        (fun m => m.fifth_1_pct + m.fifth_2_pct + m.fifth_3_pct + m.fifth_4_pct + m.fifth_5_pct)
      = some (499 / 5) ∧ ¬(|(499 : ℝ) / 5 - 100| ≤ 1 / 10) := by
  constructor
  · rw [extract_clm]
    show some ((R clm 1 1).fifth_1_pct + (R clm 1 1).fifth_2_pct + (R clm 1 1).fifth_3_pct +
      (R clm 1 1).fifth_4_pct + (R clm 1 1).fifth_5_pct) = some ((499 : ℝ) / 5)
    have q1 : (R clm 1 1).fifth_1_pct = 1 / 10 := by
      show pyround (f1 clm 1 1 / total_f clm 1 1 * 100) 1 = 1 / 10
      rw [clm_f1, clm_total_f]
      exact pyround_eq 1 1 (by norm_num) (by norm_num) (by norm_num)
    have q2 : (R clm 1 1).fifth_2_pct = 1 / 10 := by
      show pyround (f2 clm 1 1 / total_f clm 1 1 * 100) 1 = 1 / 10
      rw [clm_f2, clm_total_f]
      exact pyround_eq 1 1 (by norm_num) (by norm_num) (by norm_num)
    have q3 : (R clm 1 1).fifth_3_pct = 1 / 10 := by
      show pyround (f3 clm 1 1 / total_f clm 1 1 * 100) 1 = 1 / 10
      rw [clm_f3, clm_total_f]
      exact pyround_eq 1 1 (by norm_num) (by norm_num) (by norm_num)
    have q4 : (R clm 1 1).fifth_4_pct = 1 / 10 := by
      show pyround (f4 clm 1 1 / total_f clm 1 1 * 100) 1 = 1 / 10
      rw [clm_f4, clm_total_f]
      exact pyround_eq 1 1 (by norm_num) (by norm_num) (by norm_num)
    have q5 : (R clm 1 1).fifth_5_pct = 994 / 10 := by
      show pyround (f5 clm 1 1 / total_f clm 1 1 * 100) 1 = 994 / 10
      rw [clm_f5, clm_total_f]
      exact pyround_eq 1 994 (by norm_num) (by norm_num) (by norm_num)
    rw [q1, q2, q3, q4, q5]
    norm_num
  · rw [abs_le]
    intro hcon
    linarith [hcon.1, hcon.2]

/-- C3 (amended): both symmetry fields are nonnegative, and equal compared
measurements yield a field of exactly 0; the converse direction of the
claimed equivalence fails because the field is rounded (see the
counterexample). -/
theorem c3_symmetry_nonneg_zero_on_equal (lm : Landmarks) (w h : ℝ) (m : FacialMetrics)
    (hm : extract_metrics lm w h = some m) :
    0 ≤ m.eye_symmetry_pct ∧ 0 ≤ m.brow_symmetry_pct ∧
    (eye_l_w lm w h = eye_r_w lm w h → m.eye_symmetry_pct = 0) ∧
    (brow_l_h lm w h = brow_r_h lm w h → m.brow_symmetry_pct = 0) := by
  obtain ⟨hE, hB, hT, hF, hR⟩ := extract_metrics_some_inv lm w h m hm
  subst hR
  have hEnn : 0 ≤ max (eye_l_w lm w h) (eye_r_w lm w h) :=
    le_trans (Real.sqrt_nonneg _) (le_max_left _ _)
  have hBnn : 0 ≤ max (brow_l_h lm w h) (brow_r_h lm w h) :=
    le_trans (Real.sqrt_nonneg _) (le_max_left _ _)
  refine ⟨?_, ?_, ?_, ?_⟩
  · show 0 ≤ pyround
      (|eye_l_w lm w h - eye_r_w lm w h| / max (eye_l_w lm w h) (eye_r_w lm w h) * 100) 1
    exact pyround_nonneg (mul_nonneg (div_nonneg (abs_nonneg _) hEnn) (by norm_num)) 1
  · show 0 ≤ pyround
      (|brow_l_h lm w h - brow_r_h lm w h| / max (brow_l_h lm w h) (brow_r_h lm w h) * 100) 1
    exact pyround_nonneg (mul_nonneg (div_nonneg (abs_nonneg _) hBnn) (by norm_num)) 1
  · intro heq
    show pyround
      (|eye_l_w lm w h - eye_r_w lm w h| / max (eye_l_w lm w h) (eye_r_w lm w h) * 100) 1 = 0
    rw [heq, sub_self, abs_zero, zero_div, zero_mul, pyround_zero]
  · intro heq
    show pyround
      (|brow_l_h lm w h - brow_r_h lm w h| / max (brow_l_h lm w h) (brow_r_h lm w h) * 100) 1 = 0
    rw [heq, sub_self, abs_zero, zero_div, zero_mul, pyround_zero]

/-- C3 witness: applied to the symmetric witness set, where both compared
pairs are equal, so both fields are 0. -/
theorem c3_symmetry_nonneg_zero_on_equal_witness :
    extract_metrics wlm 1 1 = some (R wlm 1 1) ∧
    0 ≤ (R wlm 1 1).eye_symmetry_pct ∧ 0 ≤ (R wlm 1 1).brow_symmetry_pct ∧
    (R wlm 1 1).eye_symmetry_pct = 0 ∧ (R wlm 1 1).brow_symmetry_pct = 0 := by
  have h := c3_symmetry_nonneg_zero_on_equal wlm 1 1 (R wlm 1 1) extract_wlm
  exact ⟨extract_wlm, h.1, h.2.1,
    h.2.2.1 (by rw [wlm_eye_l_w, wlm_eye_r_w]),
    h.2.2.2 (by rw [wlm_brow_l_h, wlm_brow_r_h])⟩

/-- A landmark set whose eye widths differ (100000 vs. 99999 units) by a
relative amount below the rounding resolution of the symmetry field. -/
def slm : Landmarks where
  forehead_top := ⟨50, 0⟩
  glabela := ⟨50, 100⟩
  nasal_base := ⟨50, 200⟩
  chin := ⟨50, 300⟩
  jaw_left := ⟨0, 150⟩
  jaw_right := ⟨200300, 150⟩
  eye_left_inner := ⟨100100, 150⟩
  eye_left_outer := ⟨100, 150⟩
  eye_right_inner := ⟨100200, 150⟩
  eye_right_outer := ⟨200199, 150⟩
  eye_left_top := ⟨50100, 145⟩
  eye_left_bot := ⟨50100, 155⟩
  eye_right_top := ⟨150200, 145⟩
  eye_right_bot := ⟨150200, 155⟩
  brow_left_peak := ⟨100, 130⟩
  brow_right_peak := ⟨200199, 130⟩
  nasal_tip := ⟨50, 180⟩
  ala_left := ⟨40, 190⟩
  ala_right := ⟨60, 190⟩
  lip_top := ⟨50, 240⟩
  lip_bot := ⟨50, 260⟩
  lip_left := ⟨30, 250⟩
  lip_right := ⟨70, 250⟩
  cupid_left := ⟨45, 235⟩
  cupid_right := ⟨55, 235⟩
  mento := ⟨50, 280⟩
  malar_left := ⟨15, 170⟩
  malar_right := ⟨85, 170⟩

lemma slm_eye_l_w : eye_l_w slm 1 1 = 100000 :=
  dist_eval (by norm_num) (by norm_num [slm])

lemma slm_eye_r_w : eye_r_w slm 1 1 = 99999 :=
  dist_eval (by norm_num) (by norm_num [slm])

lemma slm_brow_l_h : brow_l_h slm 1 1 = 20 :=
  dist_eval (by norm_num) (by norm_num [slm])

lemma slm_brow_r_h : brow_r_h slm 1 1 = 20 :=
  dist_eval (by norm_num) (by norm_num [slm])

lemma slm_total_t : total_t slm 1 1 = 300 := by
  unfold total_t
  rw [show t_upper slm 1 1 = 100 from dist_eval (by norm_num) (by norm_num [slm]),
    show t_middle slm 1 1 = 100 from dist_eval (by norm_num) (by norm_num [slm]),
    show t_lower slm 1 1 = 100 from dist_eval (by norm_num) (by norm_num [slm])]
  norm_num

lemma slm_total_f : total_f slm 1 1 = 200300 := by
  unfold total_f
  rw [show f1 slm 1 1 = 100 by norm_num [f1, px, slm],
    show f2 slm 1 1 = 100000 from dist_eval (by norm_num) (by norm_num [slm]),
    show f3 slm 1 1 = 100 from dist_eval (by norm_num) (by norm_num [slm]),
    show f4 slm 1 1 = 99999 from dist_eval (by norm_num) (by norm_num [slm]),
    show f5 slm 1 1 = 101 by norm_num [f5, px, slm]]
  norm_num

lemma extract_slm : extract_metrics slm 1 1 = some (R slm 1 1) := by
  apply extract_metrics_eq_some
  · rw [slm_eye_l_w, slm_eye_r_w]; norm_num
  · rw [slm_brow_l_h, slm_brow_r_h]; norm_num
  · rw [slm_total_t]; norm_num
  · rw [slm_total_f]; norm_num

/-- C3 counterexample: on `slm` the two eye widths differ, yet the reported
`eye_symmetry_pct` is exactly 0 (the relative difference 0.001 % rounds to
0.0), refuting "equals 0 exactly when the two compared measurements are
equal". -/
theorem c3_counterexample :
    (extract_metrics slm 1 1).map (fun m => m.eye_symmetry_pct) = some 0 ∧
    eye_l_w slm 1 1 = 100000 ∧ eye_r_w slm 1 1 = 99999 ∧
    eye_l_w slm 1 1 ≠ eye_r_w slm 1 1 := by
  refine ⟨?_, slm_eye_l_w, slm_eye_r_w, ?_⟩
  · rw [extract_slm]
    show some ((R slm 1 1).eye_symmetry_pct) = some (0 : ℝ)
    have he : (R slm 1 1).eye_symmetry_pct = 0 := by
      show pyround
        (|eye_l_w slm 1 1 - eye_r_w slm 1 1| / max (eye_l_w slm 1 1) (eye_r_w slm 1 1) * 100) 1
          = 0
      rw [slm_eye_l_w, slm_eye_r_w]
      rw [show |(100000 : ℝ) - 99999| = 1 by rw [abs_of_nonneg (by norm_num)]; norm_num,
        show max (100000 : ℝ) 99999 = 100000 from max_eq_left (by norm_num)]
      exact pyround_eq 1 0 (by norm_num) (by norm_num) (by norm_num)
    rw [he]
  · rw [slm_eye_l_w, slm_eye_r_w]
    norm_num

/-- The witness set with both eye inner corners moved onto the outer corners:
both eye widths are exactly zero. -/
def zlm1 : Landmarks := { wlm with eye_left_inner := ⟨20, 150⟩, eye_right_inner := ⟨80, 150⟩ }

/-- The witness set with both brow peaks moved onto the eye outer corners:
both brow heights are exactly zero. -/
def zlm2 : Landmarks := { wlm with brow_left_peak := ⟨20, 150⟩, brow_right_peak := ⟨80, 150⟩ }

/-- C5: with both eye widths exactly zero (resp. both brow heights exactly
zero), the symmetry divisor `max(left, right)` is zero and carries no
epsilon, so the extractor raises a division error (`none`) instead of
returning a record. -/
theorem c5_symmetry_division_by_zero :
    eye_l_w zlm1 1 1 = 0 ∧ eye_r_w zlm1 1 1 = 0 ∧ extract_metrics zlm1 1 1 = none ∧
    brow_l_h zlm2 1 1 = 0 ∧ brow_r_h zlm2 1 1 = 0 ∧ extract_metrics zlm2 1 1 = none := by
  have e1 : eye_l_w zlm1 1 1 = 0 := dist_eval le_rfl (by norm_num [zlm1, wlm])
  have e2 : eye_r_w zlm1 1 1 = 0 := dist_eval le_rfl (by norm_num [zlm1, wlm])
  have b1 : brow_l_h zlm2 1 1 = 0 := dist_eval le_rfl (by norm_num [zlm2, wlm])
  have b2 : brow_r_h zlm2 1 1 = 0 := dist_eval le_rfl (by norm_num [zlm2, wlm])
  refine ⟨e1, e2, ?_, b1, b2, ?_⟩
  · apply extract_metrics_eq_none_eye
    rw [e1, e2]
    simp
  · apply extract_metrics_eq_none_brow
    · rw [show eye_l_w zlm2 1 1 = 20 from dist_eval (by norm_num) (by norm_num [zlm2, wlm]),
        show eye_r_w zlm2 1 1 = 20 from dist_eval (by norm_num) (by norm_num [zlm2, wlm])]
      norm_num
    · rw [b1, b2]
      simp

/-- The witness set with the left jaw point moved to the right of the left
eye's outer corner (x = 30 against x = 20). -/
def nlm : Landmarks := { wlm with jaw_left := ⟨30, 150⟩ }

lemma nlm_total_f : total_f nlm 1 1 = 70 := by
  unfold total_f
  rw [show f1 nlm 1 1 = -10 by norm_num [f1, px, nlm, wlm],
    show f2 nlm 1 1 = 20 from dist_eval (by norm_num) (by norm_num [nlm, wlm]),
    show f3 nlm 1 1 = 20 from dist_eval (by norm_num) (by norm_num [nlm, wlm]),
    show f4 nlm 1 1 = 20 from dist_eval (by norm_num) (by norm_num [nlm, wlm]),
    show f5 nlm 1 1 = 20 by norm_num [f5, px, nlm, wlm]]
  norm_num

lemma extract_nlm : extract_metrics nlm 1 1 = some (R nlm 1 1) := by
  apply extract_metrics_eq_some
  · rw [show eye_l_w nlm 1 1 = 20 from dist_eval (by norm_num) (by norm_num [nlm, wlm]),
      show eye_r_w nlm 1 1 = 20 from dist_eval (by norm_num) (by norm_num [nlm, wlm])]
    norm_num
  · rw [show brow_l_h nlm 1 1 = 20 from dist_eval (by norm_num) (by norm_num [nlm, wlm]),
      show brow_r_h nlm 1 1 = 20 from dist_eval (by norm_num) (by norm_num [nlm, wlm])]
    norm_num
  · unfold total_t
    rw [show t_upper nlm 1 1 = 100 from dist_eval (by norm_num) (by norm_num [nlm, wlm]),
      show t_middle nlm 1 1 = 100 from dist_eval (by norm_num) (by norm_num [nlm, wlm]),
      show t_lower nlm 1 1 = 100 from dist_eval (by norm_num) (by norm_num [nlm, wlm])]
    norm_num
  · rw [nlm_total_f]
    norm_num

/-- C10: on a landmark set whose jaw-left x-coordinate (30) exceeds the left
eye outer-canthus x-coordinate (20), the first fifth is a signed x-difference
and the reported `fifth_1_pct` is strictly negative (-14.3). -/
theorem c10_negative_first_fifth :
    (px nlm.jaw_left 1 1).x > (px nlm.eye_left_outer 1 1).x ∧
    (extract_metrics nlm 1 1).map (fun m => m.fifth_1_pct) = some (-143 / 10) ∧
    (-143 : ℝ) / 10 < 0 := by
  refine ⟨by norm_num [px, nlm, wlm], ?_, by norm_num⟩
  rw [extract_nlm]
  show some ((R nlm 1 1).fifth_1_pct) = some ((-143 : ℝ) / 10)
  have hq : (R nlm 1 1).fifth_1_pct = (-143 : ℝ) / 10 := by
    show pyround (f1 nlm 1 1 / total_f nlm 1 1 * 100) 1 = (-143 : ℝ) / 10
    rw [show f1 nlm 1 1 = -10 by norm_num [f1, px, nlm, wlm], nlm_total_f]
    exact pyround_eq 1 (-143) (by norm_num) (by norm_num) (by norm_num)
  rw [hq]

/-- C8 (amended): the reported `global_asymmetry_px` is 0 whenever each of the
five bilateral pairs has equal vertical coordinates, and the unrounded mean
`global_asym` scales linearly with the per-pair vertical offsets (factor
k ≥ 0); the rounded field itself does not scale linearly (see the
counterexample). -/
theorem c8_asymmetry_zero_and_unrounded_linear (lm : Landmarks) (w h : ℝ)
    (m : FacialMetrics) (hm : extract_metrics lm w h = some m) :
    ((lm.eye_left_outer.y = lm.eye_right_outer.y ∧ lm.ala_left.y = lm.ala_right.y ∧
      lm.malar_left.y = lm.malar_right.y ∧ lm.lip_left.y = lm.lip_right.y ∧
      lm.brow_left_peak.y = lm.brow_right_peak.y) → m.global_asymmetry_px = 0) ∧
    ∀ (lm2 : Landmarks) (k : ℝ), 0 ≤ k →
      lm2.eye_left_outer.y - lm2.eye_right_outer.y
        = k * (lm.eye_left_outer.y - lm.eye_right_outer.y) →
      lm2.ala_left.y - lm2.ala_right.y = k * (lm.ala_left.y - lm.ala_right.y) →
      lm2.malar_left.y - lm2.malar_right.y = k * (lm.malar_left.y - lm.malar_right.y) →
      lm2.lip_left.y - lm2.lip_right.y = k * (lm.lip_left.y - lm.lip_right.y) →
      lm2.brow_left_peak.y - lm2.brow_right_peak.y
        = k * (lm.brow_left_peak.y - lm.brow_right_peak.y) →
      global_asym lm2 w h = k * global_asym lm w h := by
  obtain ⟨hE, hB, hT, hF, hR⟩ := extract_metrics_some_inv lm w h m hm
  subst hR
  constructor
  · rintro ⟨h1, h2, h3, h4, h5⟩
    show pyround (global_asym lm w h) 1 = 0
    have hz : global_asym lm w h = 0 := by
      simp [global_asym, asym_vals, px, h1, h2, h3, h4, h5]
    rw [hz, pyround_zero]
  · intro lm2 k hk hp1 hp2 hp3 hp4 hp5
    have key : ∀ a2 b2 a1 b1 : ℝ, a2 - b2 = k * (a1 - b1) →
        |a2 * h - b2 * h| = k * |a1 * h - b1 * h| := by
      intro a2 b2 a1 b1 hab
      have hrw : a2 * h - b2 * h = k * ((a1 - b1) * h) := by
        rw [show a2 * h - b2 * h = (a2 - b2) * h by ring, hab]
        ring
      rw [hrw, abs_mul, abs_of_nonneg hk, show a1 * h - b1 * h = (a1 - b1) * h by ring]
    simp only [global_asym, asym_vals, px, List.sum_cons, List.sum_nil,
      List.length_cons, List.length_nil]
    rw [key _ _ _ _ hp1, key _ _ _ _ hp2, key _ _ _ _ hp3, key _ _ _ _ hp4,
      key _ _ _ _ hp5]
    push_cast
    ring

/-- C8 witness: on the bilaterally symmetric witness set every pair has equal
vertical coordinates and the reported global asymmetry is 0. -/
theorem c8_asymmetry_zero_and_unrounded_linear_witness :
    extract_metrics wlm 1 1 = some (R wlm 1 1) ∧
    wlm.eye_left_outer.y = wlm.eye_right_outer.y ∧ wlm.ala_left.y = wlm.ala_right.y ∧
    wlm.malar_left.y = wlm.malar_right.y ∧ wlm.lip_left.y = wlm.lip_right.y ∧
    wlm.brow_left_peak.y = wlm.brow_right_peak.y ∧
    (R wlm 1 1).global_asymmetry_px = 0 :=
  ⟨extract_wlm, rfl, rfl, rfl, rfl, rfl,
    (c8_asymmetry_zero_and_unrounded_linear wlm 1 1 (R wlm 1 1) extract_wlm).1
      ⟨rfl, rfl, rfl, rfl, rfl⟩⟩

/-- The witness set with the right malar point lowered by 0.7 units. -/
def alm1 : Landmarks := { wlm with malar_right := ⟨85, 1707 / 10⟩ }

/-- The witness set with the right malar point lowered by 1.4 units: every
per-pair vertical offset of `alm1` doubled. -/
def alm2 : Landmarks := { wlm with malar_right := ⟨85, 857 / 5⟩ }

lemma extract_alm1 : extract_metrics alm1 1 1 = some (R alm1 1 1) := by
  apply extract_metrics_eq_some
  · rw [show eye_l_w alm1 1 1 = 20 from dist_eval (by norm_num) (by norm_num [alm1, wlm]),
      show eye_r_w alm1 1 1 = 20 from dist_eval (by norm_num) (by norm_num [alm1, wlm])]
    norm_num
  · rw [show brow_l_h alm1 1 1 = 20 from dist_eval (by norm_num) (by norm_num [alm1, wlm]),
      show brow_r_h alm1 1 1 = 20 from dist_eval (by norm_num) (by norm_num [alm1, wlm])]
    norm_num
  · unfold total_t
    rw [show t_upper alm1 1 1 = 100 from dist_eval (by norm_num) (by norm_num [alm1, wlm]),
      show t_middle alm1 1 1 = 100 from dist_eval (by norm_num) (by norm_num [alm1, wlm]),
      show t_lower alm1 1 1 = 100 from dist_eval (by norm_num) (by norm_num [alm1, wlm])]
    norm_num
  · unfold total_f
    rw [show f1 alm1 1 1 = 20 by norm_num [f1, px, alm1, wlm],
      show f2 alm1 1 1 = 20 from dist_eval (by norm_num) (by norm_num [alm1, wlm]),
      show f3 alm1 1 1 = 20 from dist_eval (by norm_num) (by norm_num [alm1, wlm]),
      show f4 alm1 1 1 = 20 from dist_eval (by norm_num) (by norm_num [alm1, wlm]),
      show f5 alm1 1 1 = 20 by norm_num [f5, px, alm1, wlm]]
    norm_num

lemma extract_alm2 : extract_metrics alm2 1 1 = some (R alm2 1 1) := by
  apply extract_metrics_eq_some
  · rw [show eye_l_w alm2 1 1 = 20 from dist_eval (by norm_num) (by norm_num [alm2, wlm]),
      show eye_r_w alm2 1 1 = 20 from dist_eval (by norm_num) (by norm_num [alm2, wlm])]
    norm_num
  · rw [show brow_l_h alm2 1 1 = 20 from dist_eval (by norm_num) (by norm_num [alm2, wlm]),
      show brow_r_h alm2 1 1 = 20 from dist_eval (by norm_num) (by norm_num [alm2, wlm])]
    norm_num
  · unfold total_t
    rw [show t_upper alm2 1 1 = 100 from dist_eval (by norm_num) (by norm_num [alm2, wlm]),
      show t_middle alm2 1 1 = 100 from dist_eval (by norm_num) (by norm_num [alm2, wlm]),
      show t_lower alm2 1 1 = 100 from dist_eval (by norm_num) (by norm_num [alm2, wlm])]
    norm_num
  · unfold total_f
    rw [show f1 alm2 1 1 = 20 by norm_num [f1, px, alm2, wlm],
      show f2 alm2 1 1 = 20 from dist_eval (by norm_num) (by norm_num [alm2, wlm]),
      show f3 alm2 1 1 = 20 from dist_eval (by norm_num) (by norm_num [alm2, wlm]),
      show f4 alm2 1 1 = 20 from dist_eval (by norm_num) (by norm_num [alm2, wlm]),
      show f5 alm2 1 1 = 20 by norm_num [f5, px, alm2, wlm]]
    norm_num

lemma alm1_gasym : global_asym alm1 1 1 = 7 / 50 := by
  simp only [global_asym, asym_vals, px, List.sum_cons, List.sum_nil,
    List.length_cons, List.length_nil, alm1, wlm]
  rw [show |(170 : ℝ) * 1 - 1707 / 10 * 1| = 7 / 10 by
    rw [abs_of_nonpos (by norm_num)]; norm_num]
  norm_num

lemma alm2_gasym : global_asym alm2 1 1 = 7 / 25 := by
  simp only [global_asym, asym_vals, px, List.sum_cons, List.sum_nil,
    List.length_cons, List.length_nil, alm2, wlm]
  rw [show |(170 : ℝ) * 1 - 857 / 5 * 1| = 7 / 5 by
    rw [abs_of_nonpos (by norm_num)]; norm_num]
  norm_num

/-- C8 counterexample: doubling every per-pair vertical offset (only the
malar pair is offset: 0.7 then 1.4 units) takes the reported field from 0.1
to 0.3, not to 0.2 — the rounded `global_asymmetry_px` does not scale
linearly. -/
theorem c8_counterexample :
    (extract_metrics alm1 1 1).map (fun m => m.global_asymmetry_px) = some (1 / 10) ∧
    (extract_metrics alm2 1 1).map (fun m => m.global_asymmetry_px) = some (3 / 10) ∧
    alm2.eye_left_outer.y - alm2.eye_right_outer.y
      = 2 * (alm1.eye_left_outer.y - alm1.eye_right_outer.y) ∧
    alm2.ala_left.y - alm2.ala_right.y = 2 * (alm1.ala_left.y - alm1.ala_right.y) ∧
    alm2.malar_left.y - alm2.malar_right.y
      = 2 * (alm1.malar_left.y - alm1.malar_right.y) ∧
    alm2.lip_left.y - alm2.lip_right.y = 2 * (alm1.lip_left.y - alm1.lip_right.y) ∧
    alm2.brow_left_peak.y - alm2.brow_right_peak.y
      = 2 * (alm1.brow_left_peak.y - alm1.brow_right_peak.y) ∧
    (3 : ℝ) / 10 ≠ 2 * (1 / 10) := by
  refine ⟨?_, ?_, by norm_num [alm1, alm2, wlm], by norm_num [alm1, alm2, wlm],
    by norm_num [alm1, alm2, wlm], by norm_num [alm1, alm2, wlm],
    by norm_num [alm1, alm2, wlm], by norm_num⟩
  · rw [extract_alm1]
    show some ((R alm1 1 1).global_asymmetry_px) = some ((1 : ℝ) / 10)
    have hq : (R alm1 1 1).global_asymmetry_px = (1 : ℝ) / 10 := by
      show pyround (global_asym alm1 1 1) 1 = (1 : ℝ) / 10
      rw [alm1_gasym]
      exact pyround_eq 1 1 (by norm_num) (by norm_num) (by norm_num)
    rw [hq]
  · rw [extract_alm2]
    show some ((R alm2 1 1).global_asymmetry_px) = some ((3 : ℝ) / 10)
    have hq : (R alm2 1 1).global_asymmetry_px = (3 : ℝ) / 10 := by
      show pyround (global_asym alm2 1 1) 1 = (3 : ℝ) / 10
      rw [alm2_gasym]
      exact pyround_eq 1 3 (by norm_num) (by norm_num) (by norm_num)
    rw [hq]

/-- An epsilon-guarded quotient of a nonnegative numerator, rounded to three
decimals, is bounded by `numerator * 10^9 + 1`: large but finite. -/
lemma pyround_index_bound {a b : ℝ} (ha : 0 ≤ a) (hb : eps ≤ b) :
    |pyround (a / b) 3| ≤ a * 10 ^ 9 + 1 := by
  have hbpos : (0 : ℝ) < b := lt_of_lt_of_le eps_pos hb
  have hq0 : 0 ≤ a / b := div_nonneg ha hbpos.le
  have hqle : a / b ≤ a * 10 ^ 9 := by
    rw [div_le_iff₀ hbpos]
    have hmul : a * 10 ^ 9 * eps ≤ a * 10 ^ 9 * b :=
      mul_le_mul_of_nonneg_left hb (by positivity)
    have heq : a * 10 ^ 9 * eps = a := by
      rw [eps]
      ring
    linarith
  have hr := abs_rnd_sub (a / b * 10 ^ 3)
  rw [abs_le] at hr
  unfold pyround
  rw [abs_le]
  constructor
  · rw [le_div_iff₀ (by positivity : (0 : ℝ) < (10 : ℝ) ^ 3)]
    nlinarith [hr.1, hq0, ha]
  · rw [div_le_iff₀ (by positivity : (0 : ℝ) < (10 : ℝ) ^ 3)]
    nlinarith [hr.2, hqle]

/-- C4: the four index/ratio divisions are epsilon-guarded — each denominator
is strictly positive, the division never raises, the corresponding field is
the rounded exact quotient, and each field is bounded by a finite quantity
(`numerator * 10^9 + 1`), so no value is infinite. -/
theorem c4_indices_finite (lm : Landmarks) (w h : ℝ) (m : FacialMetrics)
    (hm : extract_metrics lm w h = some m) :
    0 < face_w lm w h + eps ∧ 0 < nas_h lm w h + eps ∧ 0 < lip_h lm w h + eps ∧
    0 < lower_h lm w h + eps ∧
    fdiv (face_h lm w h) (face_w lm w h + eps)
      = some (face_h lm w h / (face_w lm w h + eps)) ∧
    fdiv (nas_w lm w h) (nas_h lm w h + eps)
      = some (nas_w lm w h / (nas_h lm w h + eps)) ∧
    fdiv (lip_w lm w h) (lip_h lm w h + eps)
      = some (lip_w lm w h / (lip_h lm w h + eps)) ∧
    fdiv (upper_h lm w h) (lower_h lm w h + eps)
      = some (upper_h lm w h / (lower_h lm w h + eps)) ∧
    m.facial_index = pyround (face_h lm w h / (face_w lm w h + eps)) 3 ∧
    m.nasal_index = pyround (nas_w lm w h / (nas_h lm w h + eps)) 3 ∧
    m.lip_index = pyround (lip_w lm w h / (lip_h lm w h + eps)) 3 ∧
    m.upper_lower_lip_ratio = pyround (upper_h lm w h / (lower_h lm w h + eps)) 3 ∧
    |m.facial_index| ≤ face_h lm w h * 10 ^ 9 + 1 ∧
    |m.nasal_index| ≤ nas_w lm w h * 10 ^ 9 + 1 ∧
    |m.lip_index| ≤ lip_w lm w h * 10 ^ 9 + 1 ∧
    |m.upper_lower_lip_ratio| ≤ upper_h lm w h * 10 ^ 9 + 1 := by
  obtain ⟨hE, hB, hT, hF, hR⟩ := extract_metrics_some_inv lm w h m hm
  subst hR
  have h1 : (0 : ℝ) < face_w lm w h + eps :=
    add_pos_of_nonneg_of_pos (Real.sqrt_nonneg _) eps_pos
  have h2 : (0 : ℝ) < nas_h lm w h + eps :=
    add_pos_of_nonneg_of_pos (Real.sqrt_nonneg _) eps_pos
  have h3 : (0 : ℝ) < lip_h lm w h + eps :=
    add_pos_of_nonneg_of_pos (Real.sqrt_nonneg _) eps_pos
  have h4 : (0 : ℝ) < lower_h lm w h + eps :=
    add_pos_of_nonneg_of_pos (abs_nonneg _) eps_pos
  refine ⟨h1, h2, h3, h4, fdiv_of_ne _ (ne_of_gt h1), fdiv_of_ne _ (ne_of_gt h2),
    fdiv_of_ne _ (ne_of_gt h3), fdiv_of_ne _ (ne_of_gt h4), rfl, rfl, rfl, rfl,
    ?_, ?_, ?_, ?_⟩
  · exact pyround_index_bound (show 0 ≤ face_h lm w h from Real.sqrt_nonneg _)
      (by linarith [show 0 ≤ face_w lm w h from Real.sqrt_nonneg _])
  · exact pyround_index_bound (show 0 ≤ nas_w lm w h from Real.sqrt_nonneg _)
      (by linarith [show 0 ≤ nas_h lm w h from Real.sqrt_nonneg _])
  · exact pyround_index_bound (show 0 ≤ lip_w lm w h from Real.sqrt_nonneg _)
      (by linarith [show 0 ≤ lip_h lm w h from Real.sqrt_nonneg _])
  · exact pyround_index_bound (show 0 ≤ upper_h lm w h from abs_nonneg _)
      (by linarith [show 0 ≤ lower_h lm w h from abs_nonneg _])

/-- C4 witness: the finiteness facts instantiated on the witness set. -/
theorem c4_indices_finite_witness :
    extract_metrics wlm 1 1 = some (R wlm 1 1) ∧
    (0 < face_w wlm 1 1 + eps ∧ 0 < nas_h wlm 1 1 + eps ∧ 0 < lip_h wlm 1 1 + eps ∧
    0 < lower_h wlm 1 1 + eps ∧
    fdiv (face_h wlm 1 1) (face_w wlm 1 1 + eps)
      = some (face_h wlm 1 1 / (face_w wlm 1 1 + eps)) ∧
    fdiv (nas_w wlm 1 1) (nas_h wlm 1 1 + eps)
      = some (nas_w wlm 1 1 / (nas_h wlm 1 1 + eps)) ∧
    fdiv (lip_w wlm 1 1) (lip_h wlm 1 1 + eps)
      = some (lip_w wlm 1 1 / (lip_h wlm 1 1 + eps)) ∧
    fdiv (upper_h wlm 1 1) (lower_h wlm 1 1 + eps)
      = some (upper_h wlm 1 1 / (lower_h wlm 1 1 + eps)) ∧
    (R wlm 1 1).facial_index = pyround (face_h wlm 1 1 / (face_w wlm 1 1 + eps)) 3 ∧
    (R wlm 1 1).nasal_index = pyround (nas_w wlm 1 1 / (nas_h wlm 1 1 + eps)) 3 ∧
    (R wlm 1 1).lip_index = pyround (lip_w wlm 1 1 / (lip_h wlm 1 1 + eps)) 3 ∧
    (R wlm 1 1).upper_lower_lip_ratio
      = pyround (upper_h wlm 1 1 / (lower_h wlm 1 1 + eps)) 3 ∧
    |(R wlm 1 1).facial_index| ≤ face_h wlm 1 1 * 10 ^ 9 + 1 ∧
    |(R wlm 1 1).nasal_index| ≤ nas_w wlm 1 1 * 10 ^ 9 + 1 ∧
    |(R wlm 1 1).lip_index| ≤ lip_w wlm 1 1 * 10 ^ 9 + 1 ∧
    |(R wlm 1 1).upper_lower_lip_ratio| ≤ upper_h wlm 1 1 * 10 ^ 9 + 1) :=
  ⟨extract_wlm, c4_indices_finite wlm 1 1 (R wlm 1 1) extract_wlm⟩

/-- C6: the outer fifths are raw x-coordinate differences, the three inner
fifths are Euclidean distances, and each reported fifth percentage is the
rounded share of that segment in the five-segment sum. -/
theorem c6_fifths_formula (lm : Landmarks) (w h : ℝ) (m : FacialMetrics)
    (hm : extract_metrics lm w h = some m) :
    f1 lm w h = (px lm.eye_left_outer w h).x - (px lm.jaw_left w h).x ∧
    f2 lm w h = dist (px lm.eye_left_outer w h) (px lm.eye_left_inner w h) ∧
    f3 lm w h = dist (px lm.eye_left_inner w h) (px lm.eye_right_inner w h) ∧
    f4 lm w h = dist (px lm.eye_right_inner w h) (px lm.eye_right_outer w h) ∧
    f5 lm w h = (px lm.jaw_right w h).x - (px lm.eye_right_outer w h).x ∧
    m.fifth_1_pct = pyround (f1 lm w h /
      (f1 lm w h + f2 lm w h + f3 lm w h + f4 lm w h + f5 lm w h) * 100) 1 ∧
    m.fifth_2_pct = pyround (f2 lm w h /
      (f1 lm w h + f2 lm w h + f3 lm w h + f4 lm w h + f5 lm w h) * 100) 1 ∧
    m.fifth_3_pct = pyround (f3 lm w h /
      (f1 lm w h + f2 lm w h + f3 lm w h + f4 lm w h + f5 lm w h) * 100) 1 ∧
    m.fifth_4_pct = pyround (f4 lm w h /
      (f1 lm w h + f2 lm w h + f3 lm w h + f4 lm w h + f5 lm w h) * 100) 1 ∧
    m.fifth_5_pct = pyround (f5 lm w h /
      (f1 lm w h + f2 lm w h + f3 lm w h + f4 lm w h + f5 lm w h) * 100) 1 := by
  obtain ⟨hE, hB, hT, hF, hR⟩ := extract_metrics_some_inv lm w h m hm
  subst hR
  exact ⟨rfl, rfl, rfl, rfl, rfl, rfl, rfl, rfl, rfl, rfl⟩

/-- C6 witness: the fifths formula instantiated on the witness set. -/
theorem c6_fifths_formula_witness :
    extract_metrics wlm 1 1 = some (R wlm 1 1) ∧
    (f1 wlm 1 1 = (px wlm.eye_left_outer 1 1).x - (px wlm.jaw_left 1 1).x ∧
    f2 wlm 1 1 = dist (px wlm.eye_left_outer 1 1) (px wlm.eye_left_inner 1 1) ∧
    f3 wlm 1 1 = dist (px wlm.eye_left_inner 1 1) (px wlm.eye_right_inner 1 1) ∧
    f4 wlm 1 1 = dist (px wlm.eye_right_inner 1 1) (px wlm.eye_right_outer 1 1) ∧
    f5 wlm 1 1 = (px wlm.jaw_right 1 1).x - (px wlm.eye_right_outer 1 1).x ∧
    (R wlm 1 1).fifth_1_pct = pyround (f1 wlm 1 1 /
      (f1 wlm 1 1 + f2 wlm 1 1 + f3 wlm 1 1 + f4 wlm 1 1 + f5 wlm 1 1) * 100) 1 ∧
    (R wlm 1 1).fifth_2_pct = pyround (f2 wlm 1 1 /
      (f1 wlm 1 1 + f2 wlm 1 1 + f3 wlm 1 1 + f4 wlm 1 1 + f5 wlm 1 1) * 100) 1 ∧
    (R wlm 1 1).fifth_3_pct = pyround (f3 wlm 1 1 /
      (f1 wlm 1 1 + f2 wlm 1 1 + f3 wlm 1 1 + f4 wlm 1 1 + f5 wlm 1 1) * 100) 1 ∧
    (R wlm 1 1).fifth_4_pct = pyround (f4 wlm 1 1 /
      (f1 wlm 1 1 + f2 wlm 1 1 + f3 wlm 1 1 + f4 wlm 1 1 + f5 wlm 1 1) * 100) 1 ∧
    (R wlm 1 1).fifth_5_pct = pyround (f5 wlm 1 1 /
      (f1 wlm 1 1 + f2 wlm 1 1 + f3 wlm 1 1 + f4 wlm 1 1 + f5 wlm 1 1) * 100) 1) :=
  ⟨extract_wlm, c6_fifths_formula wlm 1 1 (R wlm 1 1) extract_wlm⟩

/-- A real carries exactly `n` decimal places: it is an integer multiple of
`10^-n`. -/
def isFix (x : ℝ) (n : ℕ) : Prop := ∃ z : ℤ, x = (z : ℝ) / 10 ^ n

lemma pyround_isFix (x : ℝ) (n : ℕ) : isFix (pyround x n) n := ⟨rnd (x * 10 ^ n), rfl⟩

/-- C9: every field of a returned record is rounded at construction time —
pixel and percentage fields carry exactly one decimal place, and the four
dimensionless index fields carry exactly three. -/
theorem c9_fields_rounded (lm : Landmarks) (w h : ℝ) (m : FacialMetrics)
    (hm : extract_metrics lm w h = some m) :
    isFix m.face_width_px 1 ∧ isFix m.face_height_px 1 ∧ isFix m.facial_index 3 ∧
    isFix m.third_upper_pct 1 ∧ isFix m.third_middle_pct 1 ∧ isFix m.third_lower_pct 1 ∧
    isFix m.fifth_1_pct 1 ∧ isFix m.fifth_2_pct 1 ∧ isFix m.fifth_3_pct 1 ∧
    isFix m.fifth_4_pct 1 ∧ isFix m.fifth_5_pct 1 ∧
    isFix m.eye_left_width_px 1 ∧ isFix m.eye_right_width_px 1 ∧
    isFix m.eye_symmetry_pct 1 ∧ isFix m.interpupillary_dist_px 1 ∧
    isFix m.brow_left_height_px 1 ∧ isFix m.brow_right_height_px 1 ∧
    isFix m.brow_symmetry_pct 1 ∧
    isFix m.nasal_width_px 1 ∧ isFix m.nasal_height_px 1 ∧ isFix m.nasal_index 3 ∧
    isFix m.lip_width_px 1 ∧ isFix m.lip_height_px 1 ∧ isFix m.lip_index 3 ∧
    isFix m.upper_lower_lip_ratio 3 ∧
    isFix m.chin_projection_pct 1 ∧ isFix m.global_asymmetry_px 1 := by
  obtain ⟨hE, hB, hT, hF, hR⟩ := extract_metrics_some_inv lm w h m hm
  subst hR
  exact ⟨pyround_isFix _ 1, pyround_isFix _ 1, pyround_isFix _ 3,
    pyround_isFix _ 1, pyround_isFix _ 1, pyround_isFix _ 1,
    pyround_isFix _ 1, pyround_isFix _ 1, pyround_isFix _ 1,
    pyround_isFix _ 1, pyround_isFix _ 1,
    pyround_isFix _ 1, pyround_isFix _ 1,
    pyround_isFix _ 1, pyround_isFix _ 1,
    pyround_isFix _ 1, pyround_isFix _ 1,
    pyround_isFix _ 1,
    pyround_isFix _ 1, pyround_isFix _ 1, pyround_isFix _ 3,
    pyround_isFix _ 1, pyround_isFix _ 1, pyround_isFix _ 3,
    pyround_isFix _ 3,
    pyround_isFix _ 1, pyround_isFix _ 1⟩

/-- C9 witness: the fixed-precision facts instantiated on the witness set. -/
theorem c9_fields_rounded_witness :
    extract_metrics wlm 1 1 = some (R wlm 1 1) ∧
    (isFix (R wlm 1 1).face_width_px 1 ∧ isFix (R wlm 1 1).face_height_px 1 ∧
    isFix (R wlm 1 1).facial_index 3 ∧
    isFix (R wlm 1 1).third_upper_pct 1 ∧ isFix (R wlm 1 1).third_middle_pct 1 ∧
    isFix (R wlm 1 1).third_lower_pct 1 ∧
    isFix (R wlm 1 1).fifth_1_pct 1 ∧ isFix (R wlm 1 1).fifth_2_pct 1 ∧
    isFix (R wlm 1 1).fifth_3_pct 1 ∧ isFix (R wlm 1 1).fifth_4_pct 1 ∧
    isFix (R wlm 1 1).fifth_5_pct 1 ∧
    isFix (R wlm 1 1).eye_left_width_px 1 ∧ isFix (R wlm 1 1).eye_right_width_px 1 ∧
    isFix (R wlm 1 1).eye_symmetry_pct 1 ∧ isFix (R wlm 1 1).interpupillary_dist_px 1 ∧
    isFix (R wlm 1 1).brow_left_height_px 1 ∧ isFix (R wlm 1 1).brow_right_height_px 1 ∧
    isFix (R wlm 1 1).brow_symmetry_pct 1 ∧
    isFix (R wlm 1 1).nasal_width_px 1 ∧ isFix (R wlm 1 1).nasal_height_px 1 ∧
    isFix (R wlm 1 1).nasal_index 3 ∧
    isFix (R wlm 1 1).lip_width_px 1 ∧ isFix (R wlm 1 1).lip_height_px 1 ∧
    isFix (R wlm 1 1).lip_index 3 ∧ isFix (R wlm 1 1).upper_lower_lip_ratio 3 ∧
    isFix (R wlm 1 1).chin_projection_pct 1 ∧ isFix (R wlm 1 1).global_asymmetry_px 1) :=
  ⟨extract_wlm, c9_fields_rounded wlm 1 1 (R wlm 1 1) extract_wlm⟩

/-! The ideal-range evaluator (`IDEAL` table and the classification loop of
`print_report`, source lines 319-348). -/

/-- The per-metric status of `print_report` (source lines 341-345): within
tolerance, outside tolerance, or informational-only when no tolerance is
defined. -/
def statusOf (val ideal : ℝ) (tol : Option ℝ) : String :=
  match tol with
  | some t => if |val - ideal| ≤ t then "✓" else "⚠"
  | none => "ℹ"

/-- The `IDEAL` table, source lines 319-330, in its declared (insertion)
order: metric key, ideal value, optional tolerance, description. -/
def IDEAL : List (String × ℝ × Option ℝ × String) :=
  [ ("facial_index", 1.3, some 0.1, "Índice facial (h/w) — ideal ~1.3 (oval)"),
    ("third_upper_pct", 33.3, some 3.0, "Terço superior (%) — ideal ~33%"),
    ("third_middle_pct", 33.3, some 3.0, "Terço médio (%) — ideal ~33%"),
    ("third_lower_pct", 33.3, some 3.0, "Terço inferior (%) — ideal ~33%"),
    ("fifth_3_pct", 20.0, some 2.0, "Quinto central (%) — ideal ~20%"),
    ("eye_symmetry_pct", 0.0, some 5.0, "Assimetria dos olhos (%) — ideal < 5%"),
    ("brow_symmetry_pct", 0.0, some 5.0, "Assimetria das sobrancelhas (%) — ideal < 5%"),
    ("nasal_index", 0.67, some 0.1, "Índice nasal (w/h) — ideal ~0.67"),
    ("upper_lower_lip_ratio", 0.5, some 0.1, "Razão lábio sup/inf — ideal ~0.5 (inf maior)"),
    ("global_asymmetry_px", 0.0, none, "Assimetria global (px) — menor = melhor") ]

/-- The `asdict` field lookup `d[key]` used by `print_report` (source
line 340), for every field of the dataclass; unknown keys (which
`print_report` never requests) map to 0. -/
def metricValue (m : FacialMetrics) (k : String) : ℝ :=
  if k = "face_width_px" then m.face_width_px
  else if k = "face_height_px" then m.face_height_px
  else if k = "facial_index" then m.facial_index
  else if k = "third_upper_pct" then m.third_upper_pct
  else if k = "third_middle_pct" then m.third_middle_pct
  else if k = "third_lower_pct" then m.third_lower_pct
  else if k = "fifth_1_pct" then m.fifth_1_pct
  else if k = "fifth_2_pct" then m.fifth_2_pct
  else if k = "fifth_3_pct" then m.fifth_3_pct
  else if k = "fifth_4_pct" then m.fifth_4_pct
  else if k = "fifth_5_pct" then m.fifth_5_pct
  else if k = "eye_left_width_px" then m.eye_left_width_px
  else if k = "eye_right_width_px" then m.eye_right_width_px
  else if k = "eye_symmetry_pct" then m.eye_symmetry_pct
  else if k = "interpupillary_dist_px" then m.interpupillary_dist_px
  else if k = "brow_left_height_px" then m.brow_left_height_px
  else if k = "brow_right_height_px" then m.brow_right_height_px
  else if k = "brow_symmetry_pct" then m.brow_symmetry_pct
  else if k = "nasal_width_px" then m.nasal_width_px
  else if k = "nasal_height_px" then m.nasal_height_px
  else if k = "nasal_index" then m.nasal_index
  else if k = "lip_width_px" then m.lip_width_px
  else if k = "lip_height_px" then m.lip_height_px
  else if k = "lip_index" then m.lip_index
  else if k = "upper_lower_lip_ratio" then m.upper_lower_lip_ratio
  else if k = "chin_projection_pct" then m.chin_projection_pct
  else if k = "global_asymmetry_px" then m.global_asymmetry_px
  else 0

/-- The ideal-range evaluator: the classification loop of `print_report`
(source lines 339-348), with its per-entry output collected — per the spec's
contract — as a sequence of (metric key, status, measured value, ideal value,
description) tuples in the table's declared order. -/
def report (m : FacialMetrics) : List (String × String × ℝ × ℝ × String) :=
  IDEAL.map (fun e =>
    (e.1, statusOf (metricValue m e.1) e.2.1 e.2.2.1, metricValue m e.1, e.2.1, e.2.2.2))

lemma statusOf_some (v i t : ℝ) :
    statusOf v i (some t) = if |v - i| ≤ t then "✓" else "⚠" := rfl

lemma statusOf_none (v i : ℝ) : statusOf v i none = "ℹ" := rfl

/-- C7: for every metrics record, the evaluator emits one entry per ideal
table row in the table's declared order, carrying the metric key, measured
value, ideal value and description; the status is the within-tolerance mark
exactly when the absolute deviation from the ideal is at most the tolerance,
the outside-tolerance mark exactly otherwise, and the informational mark
when no tolerance is configured. -/
theorem c7_evaluator (m : FacialMetrics) (i : ℕ) (key : String) (ideal : ℝ)
    (tol : Option ℝ) (desc : String)
    (he : IDEAL[i]? = some (key, ideal, tol, desc)) :
    (report m).length = IDEAL.length ∧
    (report m)[i]? = some (key, statusOf (metricValue m key) ideal tol,
      metricValue m key, ideal, desc) ∧
    (∀ t, tol = some t →
      ((statusOf (metricValue m key) ideal tol = "✓" ↔ |metricValue m key - ideal| ≤ t) ∧
       (statusOf (metricValue m key) ideal tol = "⚠" ↔ ¬|metricValue m key - ideal| ≤ t))) ∧
    (tol = none → statusOf (metricValue m key) ideal tol = "ℹ") := by
  refine ⟨by simp [report], ?_, ?_, ?_⟩
  · simp only [report, List.getElem?_map, he, Option.map_some']
  · intro t ht
    subst ht
    rw [statusOf_some]
    split_ifs with hcond
    · exact ⟨⟨fun _ => hcond, fun _ => rfl⟩,
        ⟨fun hfalse => absurd hfalse (by decide), fun hnot => absurd hcond hnot⟩⟩
    · exact ⟨⟨fun hfalse => absurd hfalse (by decide), fun hc => absurd hc hcond⟩,
        ⟨fun _ => hcond, fun _ => rfl⟩⟩
  · intro ht
    subst ht
    rfl

/-- An explicit all-zero metrics record, used to instantiate the evaluator. -/
def mex : FacialMetrics where
  face_width_px := 0
  face_height_px := 0
  facial_index := 0
  third_upper_pct := 0
  third_middle_pct := 0
  third_lower_pct := 0
  fifth_1_pct := 0
  fifth_2_pct := 0
  fifth_3_pct := 0
  fifth_4_pct := 0
  fifth_5_pct := 0
  eye_left_width_px := 0
  eye_right_width_px := 0
  eye_symmetry_pct := 0
  interpupillary_dist_px := 0
  brow_left_height_px := 0
  brow_right_height_px := 0
  brow_symmetry_pct := 0
  nasal_width_px := 0
  nasal_height_px := 0
  nasal_index := 0
  lip_width_px := 0
  lip_height_px := 0
  lip_index := 0
  upper_lower_lip_ratio := 0
  chin_projection_pct := 0
  global_asymmetry_px := 0

/-- C7 witness: the evaluator contract instantiated at the first table row
(the facial index) on an explicit record. -/
theorem c7_evaluator_witness :
    IDEAL[0]? = some ("facial_index", (1.3 : ℝ), some (0.1 : ℝ),
      "Índice facial (h/w) — ideal ~1.3 (oval)") ∧
    ((report mex).length = IDEAL.length ∧
    (report mex)[0]? = some ("facial_index",
      statusOf (metricValue mex "facial_index") 1.3 (some 0.1),
      metricValue mex "facial_index", (1.3 : ℝ), "Índice facial (h/w) — ideal ~1.3 (oval)") ∧
    (∀ t, (some (0.1 : ℝ)) = some t →
      ((statusOf (metricValue mex "facial_index") 1.3 (some 0.1) = "✓" ↔
          |metricValue mex "facial_index" - 1.3| ≤ t) ∧
       (statusOf (metricValue mex "facial_index") 1.3 (some 0.1) = "⚠" ↔
          ¬|metricValue mex "facial_index" - 1.3| ≤ t))) ∧
    ((some (0.1 : ℝ)) = none →
      statusOf (metricValue mex "facial_index") 1.3 (some 0.1) = "ℹ")) :=
  ⟨rfl, c7_evaluator mex 0 "facial_index" 1.3 (some 0.1)
    "Índice facial (h/w) — ideal ~1.3 (oval)" rfl⟩

end

end FA
